import Mathlib

/-!
Verification of the q2-optitrim search core (`q2_optitrim/_optimize.py`)
against its natural-language specification.

The Python objective closure `obj` built by `_make_objective`, the helpers
`_first_len`, `_guess_lengths`, `_run_dada2` and the driver
`optimize_truncation` are shallowly embedded below.  Python integers are
modelled as `Int` (read counts, which are nonnegative, as `Nat`), pandas
ratio arithmetic as `Rat`, exceptions as `Except` values, and the Optuna
sampler as an explicit function argument (Optuna's TPE sampler, seeded, is
a deterministic function of the seed and the trial history; `suggest_int`
validates its bounds and step and returns a grid point inside the bounds).
-/

namespace OptiTrim

/-- One row of the DADA2 denoising-stats table: the per-sample `input`
and `non-chimeric` read counts used by the objective. -/
structure Sample where
  input : Nat
  nonchimeric : Nat
deriving DecidableEq

/-- `str(e)[:200]`: the first 200 characters of a message string. -/
def truncMsg (s : String) : String :=
  ⟨s.data.take 200⟩

/-- `(df["non-chimeric"] / df["input"]).mean()`: the mean over samples of
the per-sample survival ratio. -/
def meanRatios (stats : List Sample) : Rat :=
  ((stats.map fun s => (s.nonchimeric : Rat) / (s.input : Rat)).sum) / (stats.length : Rat)

/-- The score computed from a successful denoiser run
(`_optimize.py` lines 143-146): 0 if any sample has zero non-chimeric
reads, otherwise the mean survival ratio. -/
def scoreStats (stats : List Sample) : Rat :=
  if stats.any (fun s => s.nonchimeric == 0) then 0
  else meanRatios stats

/-- Outcome of one call of the objective closure `obj`.
`pruned` is `optuna.TrialPruned` raised for an infeasible region;
`completed` is a float return value (score plus the optional `errmsg`
user attribute); `fatal` is any other exception escaping the objective
(e.g. a `ValueError` from `suggest_int`), which Optuna re-raises. -/
inductive ObjOutcome where
  | pruned (trunc_f : Int)
  | completed (trunc_f trunc_r : Int) (score : Rat) (errmsg : Option String)
  | fatal (msg : String)
deriving DecidableEq

/-- The `try: _run_dada2 ... except Exception` block plus scoring
(`_optimize.py` lines 128-146): a failing denoiser call is converted to
score 0 with a truncated diagnostic; a successful one is scored. -/
def evalCandidate (denoise : Int → Int → Except String (List Sample))
    (trunc_f trunc_r : Int) : ObjOutcome :=
  match denoise trunc_f trunc_r with
  | .error e => .completed trunc_f trunc_r 0 (some (truncMsg e))
  | .ok stats => .completed trunc_f trunc_r (scoreStats stats) none

/-- `trial.suggest_int(name, low, high, step=step)`: raises `ValueError`
when the step is not positive or `low > high`; otherwise returns a point
`low + i * step` of the grid inside `[low, high]`, the index chosen by
the sampler (modelled by clamping the sampler's raw choice). -/
def suggestInt (choose : Int → Int → Int) (low high step : Int) :
    Except String Int :=
  if step ≤ 0 then .error "ValueError: step must be a positive integer."
  else if low > high then .error "ValueError: low must be less than or equal to high."
  else
    let k := (high - low) / step
    .ok (low + (min (max (choose low high) 0) k) * step)

/-- Caller-supplied configuration of `optimize_truncation`. -/
structure Config where
  amplicon_length : Int
  fwd_primer_length : Int
  rev_primer_length : Int
  fraction : Rat
  trials : Nat
  maximize : Bool
  min_trunc : Int
  max_trunc : Int
  step : Int
  min_overlap : Int
  threads : Int
  seed : Option Int
deriving DecidableEq

/-- Native read lengths probed from the subsample. -/
structure ReadLens where
  fwd : Int
  rev : Int
deriving DecidableEq

/-- `min_r_allow = max(min_trunc, amp_len + min_overlap - trunc_f, 0)`
(`_optimize.py` line 115). -/
def minRAllow (cfg : Config) (trunc_f : Int) : Int :=
  max cfg.min_trunc (max (cfg.amplicon_length + cfg.min_overlap - trunc_f) 0)

/-- `max_r_allow = min(max_trunc, read_rev, read_fwd + read_rev - trunc_f)`
(`_optimize.py` line 116). -/
def maxRAllow (cfg : Config) (lens : ReadLens) (trunc_f : Int) : Int :=
  min cfg.max_trunc (min lens.rev (lens.fwd + lens.rev - trunc_f))

/-- The body of the objective after `trunc_f` has been proposed
(`_optimize.py` lines 113-146): paired mode computes the feasible
interval for `trunc_r` and prunes when it is empty; single-end mode sets
`trunc_r = 0` and prunes when `trunc_f < amp_len`; surviving candidates
are evaluated. -/
def objAfterTruncF (cfg : Config) (lens : ReadLens) (paired : Bool)
    (choose : String → Int → Int → Int)
    (denoise : Int → Int → Except String (List Sample))
    (trunc_f : Int) : ObjOutcome :=
  if paired then
    let lo := minRAllow cfg trunc_f
    let hi := maxRAllow cfg lens trunc_f
    if lo > hi then .pruned trunc_f
    else
      match suggestInt (choose "trunc_r") lo hi cfg.step with
      | .error e => .fatal e
      | .ok trunc_r => evalCandidate denoise trunc_f trunc_r
  else
    if trunc_f < cfg.amplicon_length then .pruned trunc_f
    else evalCandidate denoise trunc_f 0

/-- The whole objective closure `obj` (`_optimize.py` lines 108-146):
propose `trunc_f` in `[min_trunc, min(max_trunc, read_fwd)]`, then run
the rest of the trial. -/
def obj (cfg : Config) (lens : ReadLens) (paired : Bool)
    (choose : String → Int → Int → Int)
    (denoise : Int → Int → Except String (List Sample)) : ObjOutcome :=
  match suggestInt (choose "trunc_f") cfg.min_trunc (min cfg.max_trunc lens.fwd) cfg.step with
  | .error e => .fatal e
  | .ok trunc_f => objAfterTruncF cfg lens paired choose denoise trunc_f

/-- Whether a trial reached evaluation (returned a score). -/
def ObjOutcome.isCompleted : ObjOutcome → Bool
  | .completed _ _ _ _ => true
  | _ => false

/-- Concrete configuration used by witnesses: the feasible paired
scenario of the spec (`min_trunc=10, max_trunc=100, step=10,
amplicon_length=100, min_overlap=10`). -/
def cfg0 : Config :=
  { amplicon_length := 100, fwd_primer_length := 20, rev_primer_length := 20
  , fraction := 1/2, trials := 3, maximize := true
  , min_trunc := 10, max_trunc := 100, step := 10
  , min_overlap := 10, threads := 0, seed := some 7 }

/-- Concrete read lengths used by witnesses (`read_fwd=150, read_rev=150`). -/
def lens0 : ReadLens := { fwd := 150, rev := 150 }

/-- A sampler whose raw choice is always index 0 (takes the low end of
each grid). -/
def choose0 : String → Int → Int → Int := fun _ _ _ => 0

/-- A denoiser stub that always fails. -/
def denoiseFail : Int → Int → Except String (List Sample) :=
  fun _ _ => .error "boom"

/-- A denoiser stub that always returns one sample with 80 of 100 reads
surviving. -/
def denoiseOk0 : Int → Int → Except String (List Sample) :=
  fun _ _ => .ok [⟨100, 80⟩]

/-- Evaluation always yields a completed outcome (never a pruning
signal and never an escaping exception). -/
theorem evalCandidate_isCompleted (denoise : Int → Int → Except String (List Sample))
    (tf tr : Int) : (evalCandidate denoise tf tr).isCompleted = true := by
  unfold evalCandidate
  rcases denoise tf tr with e | stats <;> rfl

/-- Evaluation never produces a pruned outcome. -/
theorem evalCandidate_ne_pruned (denoise : Int → Int → Except String (List Sample))
    (tf tr x : Int) : evalCandidate denoise tf tr ≠ .pruned x := by
  unfold evalCandidate
  rcases denoise tf tr with e | stats <;> intro h <;> exact ObjOutcome.noConfusion h

/-- C1: in paired mode, for a proposed `trunc_f` the feasible interval is
`[minRAllow, maxRAllow]`; the trial is pruned iff `minRAllow > maxRAllow`,
and when `minRAllow = maxRAllow` (a one-point region) the trial is not
pruned but evaluated (given the positive step that already admitted
`trunc_f`). -/
theorem paired_prunes_iff_empty_region (cfg : Config) (lens : ReadLens)
    (choose : String → Int → Int → Int)
    (denoise : Int → Int → Except String (List Sample)) (trunc_f : Int) :
    (objAfterTruncF cfg lens true choose denoise trunc_f = .pruned trunc_f ↔
      maxRAllow cfg lens trunc_f < minRAllow cfg trunc_f) ∧
    (0 < cfg.step → minRAllow cfg trunc_f = maxRAllow cfg lens trunc_f →
      (objAfterTruncF cfg lens true choose denoise trunc_f).isCompleted = true) := by
  constructor
  · constructor
    · intro h
      by_contra hlt
      push_neg at hlt
      simp only [objAfterTruncF, if_true] at h
      rw [if_neg (not_lt.mpr hlt)] at h
      rcases hsugg : suggestInt (choose "trunc_r") (minRAllow cfg trunc_f)
          (maxRAllow cfg lens trunc_f) cfg.step with e | v
      · rw [hsugg] at h
        have h' : ObjOutcome.fatal e = ObjOutcome.pruned trunc_f := h
        exact ObjOutcome.noConfusion h'
      · rw [hsugg] at h
        have h' : evalCandidate denoise trunc_f v = ObjOutcome.pruned trunc_f := h
        exact evalCandidate_ne_pruned denoise trunc_f v trunc_f h'
    · intro hlt
      simp only [objAfterTruncF, if_true]
      rw [if_pos (by exact hlt)]
  · intro hstep heq
    simp only [objAfterTruncF, if_true]
    rw [if_neg (by omega)]
    have hok : suggestInt (choose "trunc_r") (minRAllow cfg trunc_f)
        (maxRAllow cfg lens trunc_f) cfg.step =
        .ok (minRAllow cfg trunc_f +
          (min (max (choose "trunc_r" (minRAllow cfg trunc_f) (maxRAllow cfg lens trunc_f)) 0)
            ((maxRAllow cfg lens trunc_f - minRAllow cfg trunc_f) / cfg.step)) * cfg.step) := by
      unfold suggestInt
      rw [if_neg (by omega), if_neg (by omega)]
    rw [hok]
    exact evalCandidate_isCompleted denoise trunc_f _

/-- Witness for C1 at the spec's boundary scenario: `trunc_f = 10` gives
`minRAllow = maxRAllow = 100`, and the trial proceeds. -/
theorem paired_prunes_iff_empty_region_witness :
    (objAfterTruncF cfg0 lens0 true choose0 denoiseFail 10 = .pruned 10 ↔
      maxRAllow cfg0 lens0 10 < minRAllow cfg0 10) ∧
    (0 < cfg0.step ∧ minRAllow cfg0 10 = maxRAllow cfg0 lens0 10) ∧
    (objAfterTruncF cfg0 lens0 true choose0 denoiseFail 10).isCompleted = true := by
  refine ⟨(paired_prunes_iff_empty_region cfg0 lens0 choose0 denoiseFail 10).1,
    ⟨by decide, by decide⟩,
    (paired_prunes_iff_empty_region cfg0 lens0 choose0 denoiseFail 10).2
      (by decide) (by decide)⟩

/-- C5: in single-end mode a candidate is pruned iff `trunc_f` is below
the amplicon length; `trunc_f = amplicon_length` is accepted and
evaluated. -/
theorem single_end_prunes_iff_short (cfg : Config) (lens : ReadLens)
    (choose : String → Int → Int → Int)
    (denoise : Int → Int → Except String (List Sample)) (trunc_f : Int) :
    (objAfterTruncF cfg lens false choose denoise trunc_f = .pruned trunc_f ↔
      trunc_f < cfg.amplicon_length) ∧
    (trunc_f = cfg.amplicon_length →
      (objAfterTruncF cfg lens false choose denoise trunc_f).isCompleted = true) := by
  constructor
  · constructor
    · intro h
      by_contra hge
      simp only [objAfterTruncF, Bool.false_eq_true, if_false] at h
      rw [if_neg hge] at h
      exact evalCandidate_ne_pruned denoise trunc_f 0 trunc_f h
    · intro hlt
      simp only [objAfterTruncF, Bool.false_eq_true, if_false]
      rw [if_pos hlt]
  · intro heq
    simp only [objAfterTruncF, Bool.false_eq_true, if_false]
    rw [if_neg (by omega)]
    exact evalCandidate_isCompleted denoise trunc_f 0

/-- Witness for C5 at the spec's scenario: `amplicon_length = 100`,
`trunc_f = 90` is pruned, `trunc_f = 100` is accepted. -/
theorem single_end_prunes_iff_short_witness :
    (objAfterTruncF cfg0 lens0 false choose0 denoiseFail 90 = .pruned 90 ↔
      (90 : Int) < cfg0.amplicon_length) ∧
    ((100 : Int) = cfg0.amplicon_length) ∧
    (objAfterTruncF cfg0 lens0 false choose0 denoiseFail 100).isCompleted = true :=
  ⟨(single_end_prunes_iff_short cfg0 lens0 choose0 denoiseFail 90).1,
   by decide,
   (single_end_prunes_iff_short cfg0 lens0 choose0 denoiseFail 100).2 (by decide)⟩

/-- C2: on a successful denoiser run the score is the mean survival
ratio, forced to exactly 0 when some sample has zero non-chimeric reads;
a failed call scores 0; and, when every sample has positive input and no
more surviving reads than input reads, the score lies in `[0, 1]`. -/
theorem evaluator_score_spec (stats : List Sample)
    (denoiseGood denoiseBad : Int → Int → Except String (List Sample))
    (tf tr : Int) (e : String)
    (hne : stats ≠ [])
    (hpos : ∀ s ∈ stats, 0 < s.input)
    (hle : ∀ s ∈ stats, s.nonchimeric ≤ s.input)
    (hgood : denoiseGood tf tr = .ok stats)
    (hbad : denoiseBad tf tr = .error e) :
    (evalCandidate denoiseGood tf tr = .completed tf tr (scoreStats stats) none) ∧
    ((∀ s ∈ stats, s.nonchimeric ≠ 0) → scoreStats stats = meanRatios stats) ∧
    ((∃ s ∈ stats, s.nonchimeric = 0) → scoreStats stats = 0) ∧
    (evalCandidate denoiseBad tf tr = .completed tf tr 0 (some (truncMsg e))) ∧
    0 ≤ scoreStats stats ∧ scoreStats stats ≤ 1 := by
  have hlb : ∀ x ∈ stats.map (fun s => (s.nonchimeric : Rat) / (s.input : Rat)), 0 ≤ x := by
    intro x hx
    rcases List.mem_map.mp hx with ⟨s, _, rfl⟩
    exact div_nonneg (by positivity) (by positivity)
  have hub : ∀ x ∈ stats.map (fun s => (s.nonchimeric : Rat) / (s.input : Rat)), x ≤ 1 := by
    intro x hx
    rcases List.mem_map.mp hx with ⟨s, hs, rfl⟩
    have h1 : (0 : Rat) < (s.input : Rat) := by exact_mod_cast hpos s hs
    rw [div_le_one h1]
    exact_mod_cast hle s hs
  have hsum0 : 0 ≤ (stats.map (fun s => (s.nonchimeric : Rat) / (s.input : Rat))).sum :=
    List.sum_nonneg hlb
  have hsum1 : (stats.map (fun s => (s.nonchimeric : Rat) / (s.input : Rat))).sum ≤
      (stats.length : Rat) := by
    have := List.sum_le_card_nsmul
      (stats.map (fun s => (s.nonchimeric : Rat) / (s.input : Rat))) 1 hub
    rwa [List.length_map, nsmul_eq_mul, mul_one] at this
  have hlen : (0 : Rat) < (stats.length : Rat) := by
    have := List.length_pos.mpr hne
    exact_mod_cast this
  refine ⟨?_, ?_, ?_, ?_, ?_, ?_⟩
  · unfold evalCandidate
    rw [hgood]
  · intro hall
    unfold scoreStats
    rw [if_neg]
    simp only [List.any_eq_true, beq_iff_eq, not_exists]
    intro s hs
    exact hall s hs.1 hs.2
  · intro hex
    unfold scoreStats
    rw [if_pos]
    simp only [List.any_eq_true, beq_iff_eq]
    rcases hex with ⟨s, hs, h0⟩
    exact ⟨s, hs, h0⟩
  · unfold evalCandidate
    rw [hbad]
  · unfold scoreStats
    split
    · exact le_refl 0
    · exact div_nonneg hsum0 (le_of_lt hlen)
  · unfold scoreStats
    split
    · norm_num
    · unfold meanRatios
      rw [div_le_one hlen]
      exact hsum1

/-- Statistics used by the C2 witness: two samples, one with 80 of 100
reads surviving and one with 50 of 50. -/
def stats0 : List Sample := [⟨100, 80⟩, ⟨50, 50⟩]

/-- A denoiser stub returning `stats0`. -/
def denoiseStats0 : Int → Int → Except String (List Sample) :=
  fun _ _ => .ok stats0

/-- Witness for C2 at `stats0`: the score is the mean ratio
`(80/100 + 50/50)/2 = 9/10` and lies in `[0, 1]`. -/
theorem evaluator_score_spec_witness :
    (evalCandidate denoiseStats0 5 5 = .completed 5 5 (scoreStats stats0) none) ∧
    ((∀ s ∈ stats0, s.nonchimeric ≠ 0) → scoreStats stats0 = meanRatios stats0) ∧
    ((∃ s ∈ stats0, s.nonchimeric = 0) → scoreStats stats0 = 0) ∧
    (evalCandidate denoiseFail 5 5 = .completed 5 5 0 (some (truncMsg "boom"))) ∧
    0 ≤ scoreStats stats0 ∧ scoreStats stats0 ≤ 1 :=
  evaluator_score_spec stats0 denoiseStats0 denoiseFail 5 5 "boom"
    (by decide) (by decide) (by decide) rfl rfl

/-- C10: for a failed trial the diagnostic recorded on the trial record
(`trial.set_user_attr("errmsg", str(e)[:200])`) is the exception string
truncated to at most 200 characters, and is the whole string when that
string is short enough. -/
theorem errmsg_is_truncated_exception
    (denoise : Int → Int → Except String (List Sample))
    (tf tr : Int) (e : String)
    (hfail : denoise tf tr = .error e) :
    evalCandidate denoise tf tr = .completed tf tr 0 (some (truncMsg e)) ∧
    (truncMsg e).length ≤ 200 ∧
    (e.length ≤ 200 → truncMsg e = e) := by
  refine ⟨?_, ?_, ?_⟩
  · unfold evalCandidate
    rw [hfail]
  · have h : (truncMsg e).length = min 200 e.data.length := List.length_take 200 e.data
    rw [h]
    exact min_le_left _ _
  · intro hlen
    have h : e.data.take 200 = e.data := List.take_of_length_le hlen
    show String.mk (e.data.take 200) = e
    rw [h]

/-- Witness for C10 with a short message. -/
theorem errmsg_is_truncated_exception_witness :
    evalCandidate denoiseFail 3 4 = .completed 3 4 0 (some (truncMsg "boom")) ∧
    (truncMsg "boom").length ≤ 200 ∧
    ("boom".length ≤ 200 → truncMsg "boom" = "boom") :=
  errmsg_is_truncated_exception denoiseFail 3 4 "boom" rfl

/-- Fatal error escaping `study.optimize` (which runs with the default
`catch=()`, so any non-pruning exception from the objective is
re-raised): the message and the number of trials that had started when
it was raised. -/
structure RunError where
  msg : String
  trialsStarted : Nat
deriving DecidableEq

/-- `study.optimize(obj, n_trials=trials)`: run the objective up to the
given number of times, recording pruned and completed trials; a fatal
exception aborts the loop. The objective receives the history so far
(the sampler conditions its proposal on past trials). -/
def runTrials (stepF : List ObjOutcome → ObjOutcome) :
    Nat → List ObjOutcome → Except RunError (List ObjOutcome)
  | 0, acc => .ok acc
  | n + 1, acc =>
    match stepF acc with
    | .fatal msg => .error ⟨msg, acc.length + 1⟩
    | .pruned tf => runTrials stepF n (acc ++ [ObjOutcome.pruned tf])
    | .completed tf tr sc m =>
        runTrials stepF n (acc ++ [ObjOutcome.completed tf tr sc m])

/-- C4: a failing denoiser call does not propagate out of the objective:
the trial completes with score 0 and the truncated diagnostic, and the
trial loop continues with the next trial (one budget slot consumed, the
record appended). -/
theorem denoiser_failure_absorbed
    (denoise : Int → Int → Except String (List Sample))
    (tf tr : Int) (e : String)
    (hfail : denoise tf tr = .error e)
    (stepF : List ObjOutcome → ObjOutcome) (acc : List ObjOutcome) (n : Nat)
    (hstep : stepF acc = evalCandidate denoise tf tr) :
    evalCandidate denoise tf tr = .completed tf tr 0 (some (truncMsg e)) ∧
    (evalCandidate denoise tf tr).isCompleted = true ∧
    runTrials stepF (n + 1) acc =
      runTrials stepF n (acc ++ [ObjOutcome.completed tf tr 0 (some (truncMsg e))]) := by
  have h1 : evalCandidate denoise tf tr = .completed tf tr 0 (some (truncMsg e)) := by
    unfold evalCandidate
    rw [hfail]
  refine ⟨h1, evalCandidate_isCompleted denoise tf tr, ?_⟩
  simp only [runTrials]
  rw [hstep, h1]

/-- Witness for C4: a single-trial loop with an always-failing denoiser
completes the trial with score 0 and continues. -/
theorem denoiser_failure_absorbed_witness :
    evalCandidate denoiseFail 60 70 = .completed 60 70 0 (some (truncMsg "boom")) ∧
    (evalCandidate denoiseFail 60 70).isCompleted = true ∧
    runTrials (fun _ => evalCandidate denoiseFail 60 70) (0 + 1) [] =
      runTrials (fun _ => evalCandidate denoiseFail 60 70) 0
        ([] ++ [ObjOutcome.completed 60 70 0 (some (truncMsg "boom"))]) :=
  denoiser_failure_absorbed denoiseFail 60 70 "boom" rfl
    (fun _ => evalCandidate denoiseFail 60 70) [] 0 rfl

/-- A value successfully returned by `suggest_int` lies within the
requested bounds. -/
theorem suggestInt_ok_bounds (choose : Int → Int → Int) (low high step v : Int)
    (h : suggestInt choose low high step = .ok v) :
    low ≤ v ∧ v ≤ high := by
  unfold suggestInt at h
  by_cases h1 : step ≤ 0
  · rw [if_pos h1] at h
    exact Except.noConfusion h
  · rw [if_neg h1] at h
    by_cases h2 : low > high
    · rw [if_pos h2] at h
      exact Except.noConfusion h
    · rw [if_neg h2] at h
      have hv : low + (min (max (choose low high) 0) ((high - low) / step)) * step = v := by
        injection h
      push_neg at h1 h2
      have hi0 : 0 ≤ min (max (choose low high) 0) ((high - low) / step) :=
        le_min (le_max_right _ _) (Int.ediv_nonneg (by omega) (by omega))
      have hik : min (max (choose low high) 0) ((high - low) / step) ≤ (high - low) / step :=
        min_le_right _ _
      have hkstep : ((high - low) / step) * step ≤ high - low :=
        Int.ediv_mul_le (high - low) (by omega)
      have histep : (min (max (choose low high) 0) ((high - low) / step)) * step ≤
          ((high - low) / step) * step :=
        mul_le_mul_of_nonneg_right hik (by omega)
      constructor
      · nlinarith
      · omega

/-- C6: every paired candidate that reaches evaluation satisfies the
coupling invariant `trunc_f + trunc_r ≥ amplicon_length + min_overlap`
together with `trunc_r ≤ read_rev` and `trunc_f ≤ read_fwd`. -/
theorem paired_completed_invariants (cfg : Config) (lens : ReadLens)
    (choose : String → Int → Int → Int)
    (denoise : Int → Int → Except String (List Sample))
    (tf tr : Int) (sc : Rat) (m : Option String)
    (h : obj cfg lens true choose denoise = .completed tf tr sc m) :
    cfg.amplicon_length + cfg.min_overlap ≤ tf + tr ∧
    tr ≤ lens.rev ∧ tf ≤ lens.fwd := by
  unfold obj at h
  rcases hf : suggestInt (choose "trunc_f") cfg.min_trunc (min cfg.max_trunc lens.fwd)
      cfg.step with e | trunc_f
  · rw [hf] at h
    have h' : ObjOutcome.fatal e = ObjOutcome.completed tf tr sc m := h
    exact ObjOutcome.noConfusion h'
  · rw [hf] at h
    have hfb := suggestInt_ok_bounds _ _ _ _ _ hf
    have h' : objAfterTruncF cfg lens true choose denoise trunc_f =
        ObjOutcome.completed tf tr sc m := h
    unfold objAfterTruncF at h'
    simp only [if_true] at h'
    by_cases hinf : minRAllow cfg trunc_f > maxRAllow cfg lens trunc_f
    · rw [if_pos hinf] at h'
      exact ObjOutcome.noConfusion h'
    · rw [if_neg hinf] at h'
      rcases hr : suggestInt (choose "trunc_r") (minRAllow cfg trunc_f)
          (maxRAllow cfg lens trunc_f) cfg.step with e | trunc_r
      · rw [hr] at h'
        have h'' : ObjOutcome.fatal e = ObjOutcome.completed tf tr sc m := h'
        exact ObjOutcome.noConfusion h''
      · rw [hr] at h'
        have hrb := suggestInt_ok_bounds _ _ _ _ _ hr
        have h'' : evalCandidate denoise trunc_f trunc_r =
            ObjOutcome.completed tf tr sc m := h'
        unfold evalCandidate at h''
        rcases hd : denoise trunc_f trunc_r with e | stats <;> rw [hd] at h''
        · have heq : trunc_f = tf ∧ trunc_r = tr := by
            injection h'' with e1 e2 e3 e4
            exact ⟨e1, e2⟩
          obtain ⟨rfl, rfl⟩ := heq
          refine ⟨?_, ?_, ?_⟩
          · have := hrb.1
            unfold minRAllow at this
            omega
          · have := hrb.2
            unfold maxRAllow at this
            omega
          · have := hfb.2
            omega
        · have heq : trunc_f = tf ∧ trunc_r = tr := by
            injection h'' with e1 e2 e3 e4
            exact ⟨e1, e2⟩
          obtain ⟨rfl, rfl⟩ := heq
          refine ⟨?_, ?_, ?_⟩
          · have := hrb.1
            unfold minRAllow at this
            omega
          · have := hrb.2
            unfold maxRAllow at this
            omega
          · have := hfb.2
            omega

/-- Witness for C6: with `cfg0`/`lens0` and a sampler picking raw index
2, the trial completes at `trunc_f = 30`, `trunc_r = 100`, and the three
invariants hold. -/
theorem paired_completed_invariants_witness :
    cfg0.amplicon_length + cfg0.min_overlap ≤ 30 + 100 ∧
    (100 : Int) ≤ lens0.rev ∧ (30 : Int) ≤ lens0.fwd :=
  paired_completed_invariants cfg0 lens0 (fun _ _ _ => 2) denoiseFail
    30 100 0 (some (truncMsg "boom")) (by decide)

/-- `study.best_params` over completed trials: the best score in the
chosen direction, first-found winning ties (a later trial replaces the
incumbent only when strictly better). Returns
`(trunc_f, trunc_r, score)`. -/
def bestCompleted (maximize : Bool) : List ObjOutcome → Option (Int × Int × Rat)
  | [] => none
  | .completed tf tr sc _ :: rest =>
    match bestCompleted maximize rest with
    | none => some (tf, tr, sc)
    | some (tf', tr', sc') =>
      if (if maximize then sc < sc' else sc' < sc) then some (tf', tr', sc')
      else some (tf, tr, sc)
  | .pruned _ :: rest => bestCompleted maximize rest
  | .fatal _ :: rest => bestCompleted maximize rest

/-- Result of a successful run: the recorded trial sequence and the best
parameters (`best_params` / `best_value` of the study summary). -/
structure RunOutput where
  trialSeq : List ObjOutcome
  best_f : Int
  best_r : Int
  best_value : Rat
  n_trials : Nat
deriving DecidableEq

/-- `optimize_truncation` (`_optimize.py` lines 152-237) after the
subsample and read-length probe: seed the sampler (`TPESampler(seed=seed)`;
the seeded sampler is a deterministic function of the seed and the trial
history), run the trials, and assemble the best parameters.  The function
performs no validation of the caller-supplied bounds before the study
starts. -/
def optimize_truncation
    (sampler : Option Int → List ObjOutcome → String → Int → Int → Int)
    (denoise : Int → Int → Except String (List Sample))
    (lens : ReadLens) (paired : Bool) (cfg : Config) :
    Except RunError RunOutput :=
  match runTrials (fun hist => obj cfg lens paired (sampler cfg.seed hist) denoise)
      cfg.trials [] with
  | .error e => .error e
  | .ok recs =>
    match bestCompleted cfg.maximize recs with
    | none => .error ⟨"ValueError: Record does not exist.", recs.length⟩
    | some (tf, tr, sc) => .ok ⟨recs, tf, tr, sc, recs.length⟩

/-- The parameter ranges declared in `plugin_setup.py` for
`optimize_truncation`: the QIIME 2 framework rejects a call violating
them before the function body runs. -/
def pluginAccepts (cfg : Config) : Prop :=
  0 < cfg.fraction ∧ cfg.fraction ≤ 1 ∧ 1 ≤ cfg.trials ∧
  0 ≤ cfg.min_trunc ∧ 1 ≤ cfg.max_trunc ∧ 1 ≤ cfg.step ∧
  0 ≤ cfg.min_overlap ∧ 0 ≤ cfg.threads

/-- C3: two runs of the driver with the same seed, the same bounds, the
same dataset (read lengths and denoiser behaviour) and a deterministic
evaluator produce the identical trial sequence and the identical best
candidate. -/
theorem optimize_truncation_deterministic
    (sampler : Option Int → List ObjOutcome → String → Int → Int → Int)
    (denoise : Int → Int → Except String (List Sample))
    (lens : ReadLens) (paired : Bool) (cfg : Config)
    (out1 out2 : Except RunError RunOutput)
    (h1 : out1 = optimize_truncation sampler denoise lens paired cfg)
    (h2 : out2 = optimize_truncation sampler denoise lens paired cfg) :
    out1 = out2 := by
  rw [h1, h2]

/-- Witness for C3: a concrete paired run, repeated, gives equal
results. -/
theorem optimize_truncation_deterministic_witness :
    optimize_truncation (fun _ _ _ _ _ => 2) denoiseStats0 lens0 true cfg0 =
      optimize_truncation (fun _ _ _ _ _ => 2) denoiseStats0 lens0 true cfg0 :=
  optimize_truncation_deterministic (fun _ _ _ _ _ => 2) denoiseStats0 lens0 true cfg0
    _ _ rfl rfl

/-- Configuration with inconsistent bounds (`min_trunc > max_trunc`)
used to refute C7; every other field is within the plugin's ranges. -/
def cfgBad : Config :=
  { amplicon_length := 100, fwd_primer_length := 20, rev_primer_length := 20
  , fraction := 1/2, trials := 3, maximize := true
  , min_trunc := 10, max_trunc := 5, step := 5
  , min_overlap := 10, threads := 0, seed := some 7 }

/-- Counterexample to C7 as stated: with `min_trunc = 10 > 5 = max_trunc`
(a configuration the plugin's declared ranges accept), the run does fail,
but the error is raised inside the first trial when `trunc_f` is
proposed — one trial has already started, so the failure is not surfaced
before any trial runs. -/
theorem config_error_not_before_trials_cex :
    cfgBad.max_trunc < cfgBad.min_trunc ∧
    pluginAccepts cfgBad ∧
    optimize_truncation (fun _ _ _ _ _ => 0) denoiseStats0 lens0 true cfgBad =
      .error ⟨"ValueError: low must be less than or equal to high.", 1⟩ ∧
    (1 : Nat) ≠ 0 := by
  refine ⟨by decide, ?_, by rfl, by decide⟩
  unfold pluginAccepts cfgBad
  refine ⟨by norm_num, by norm_num, by norm_num, by norm_num, by norm_num,
    by norm_num, by norm_num, by norm_num⟩

/-- C7 amended: a non-positive step or a fraction outside `(0, 1]` is
rejected by the plugin's declared parameter ranges before the function
runs, but `min_trunc > max_trunc` is not validated up front: the run
aborts with a fatal error raised inside the first trial (after one trial
has started), when `suggest_int` rejects the empty `trunc_f` range. -/
theorem config_error_surfaced_in_first_trial
    (sampler : Option Int → List ObjOutcome → String → Int → Int → Int)
    (denoise : Int → Int → Except String (List Sample))
    (lens : ReadLens) (paired : Bool) (cfg : Config)
    (hrange : min cfg.max_trunc lens.fwd < cfg.min_trunc ∨ cfg.step ≤ 0)
    (htrials : 0 < cfg.trials) :
    (∀ c : Config, (c.step ≤ 0 ∨ ¬(0 < c.fraction ∧ c.fraction ≤ 1)) →
      ¬pluginAccepts c) ∧
    ∃ msg, optimize_truncation sampler denoise lens paired cfg =
      .error ⟨msg, 1⟩ := by
  constructor
  · intro c hc hacc
    rcases hacc with ⟨a1, a2, _, _, _, a6, _, _⟩
    rcases hc with hstep | hfrac
    · omega
    · exact hfrac ⟨a1, a2⟩
  · have hfatal : obj cfg lens paired (sampler cfg.seed []) denoise =
        .fatal (if cfg.step ≤ 0 then "ValueError: step must be a positive integer."
          else "ValueError: low must be less than or equal to high.") := by
      unfold obj suggestInt
      by_cases hs : cfg.step ≤ 0
      · rw [if_pos hs, if_pos hs]
      · rw [if_neg hs, if_neg hs, if_pos (by omega)]
    unfold optimize_truncation
    obtain ⟨n, hn⟩ : ∃ n, cfg.trials = n + 1 := ⟨cfg.trials - 1, by omega⟩
    rw [hn]
    simp only [runTrials]
    rw [hfatal]
    exact ⟨_, rfl⟩

/-- Witness for C7's amended statement at `cfgBad`. -/
theorem config_error_surfaced_in_first_trial_witness :
    (min cfgBad.max_trunc lens0.fwd < cfgBad.min_trunc ∨ cfgBad.step ≤ 0) ∧
    0 < cfgBad.trials ∧
    ((∀ c : Config, (c.step ≤ 0 ∨ ¬(0 < c.fraction ∧ c.fraction ≤ 1)) →
      ¬pluginAccepts c) ∧
      ∃ msg, optimize_truncation (fun _ _ _ _ _ => 0) denoiseStats0 lens0 true cfgBad =
        .error ⟨msg, 1⟩) :=
  ⟨by decide, by decide,
    config_error_surfaced_in_first_trial (fun _ _ _ _ _ => 0) denoiseStats0 lens0 true
      cfgBad (by decide) (by decide)⟩

/-- A gzipped FASTQ file, modelled as its decompressed text lines. -/
structure FastqFile where
  lines : List String
deriving DecidableEq

/-- One manifest row: the per-sample forward and reverse FASTQ paths. -/
structure SampleFiles where
  forward : FastqFile
  reverse : FastqFile
deriving DecidableEq

/-- `_first_len` (`_optimize.py` lines 39-42): skip the header line,
read the next line, strip it and return its length; a file with fewer
than two lines raises `StopIteration` (surfacing as a data-access
failure). Python `str.strip()` is modelled by `String.trim`. -/
def first_len (fq : FastqFile) : Except String Nat :=
  match fq.lines with
  | _ :: l1 :: _ => .ok l1.trim.length
  | _ => .error "StopIteration"

/-- `_guess_lengths` (`_optimize.py` lines 45-53): read the first
manifest record only; paired mode probes the forward file then the
reverse file, single-end mode probes the forward file and reports
reverse length 0; an empty manifest raises `IndexError` (a data-access
failure). -/
def guess_lengths (manifest : List SampleFiles) (paired : Bool) :
    Except String (Nat × Nat) :=
  match manifest with
  | [] => .error "IndexError: single positional indexer is out-of-bounds"
  | r :: _ =>
    if paired then
      match first_len r.forward with
      | .error e => .error e
      | .ok f =>
        match first_len r.reverse with
        | .error e => .error e
        | .ok rv => .ok (f, rv)
    else
      match first_len r.forward with
      | .error e => .error e
      | .ok f => .ok (f, 0)

/-- C8: the prober depends only on the first manifest record and, per
file, only on the first two lines (no full-file scan); single-end mode
reports reverse length 0; an empty manifest or an empty/truncated file
fails with a data-access error. -/
theorem guess_lengths_spec :
    (∀ (r : SampleFiles) (rest : List SampleFiles) (paired : Bool),
      guess_lengths (r :: rest) paired = guess_lengths [r] paired) ∧
    (∀ (l0 l1 : String) (rest : List String),
      first_len ⟨l0 :: l1 :: rest⟩ = first_len ⟨[l0, l1]⟩) ∧
    (∀ (r : SampleFiles) (rest : List SampleFiles),
      guess_lengths (r :: rest) false = (first_len r.forward).map (fun f => (f, 0))) ∧
    (∀ paired, guess_lengths [] paired =
      .error "IndexError: single positional indexer is out-of-bounds") ∧
    first_len ⟨[]⟩ = .error "StopIteration" ∧
    (∀ l0, first_len ⟨[l0]⟩ = .error "StopIteration") := by
  refine ⟨?_, ?_, ?_, ?_, rfl, ?_⟩
  · intro r rest paired
    rfl
  · intro l0 l1 rest
    rfl
  · intro r rest
    show (match first_len r.forward with
      | .error e => Except.error e
      | .ok f => Except.ok (f, 0)) = (first_len r.forward).map (fun f => (f, 0))
    rcases first_len r.forward with e | f <;> rfl
  · intro paired
    rfl
  · intro l0
    rfl

/-- Process state visible to `_run_dada2`: the `TMPDIR` environment
variable, the set of existing scratch directories, and a counter from
which `tempfile.TemporaryDirectory()` draws fresh names. -/
structure SysState where
  tmpdir : Option String
  dirs : List String
  counter : Nat
deriving DecidableEq

/-- Name of the next scratch directory `tempfile.TemporaryDirectory()`
creates. -/
def newTmpName (n : Nat) : String := "/tmp/tmp" ++ toString n

/-- `_run_dada2` (`_optimize.py` lines 56-91): create a fresh scratch
directory, save the old `TMPDIR` and point `TMPDIR` at the scratch
directory, run the denoiser (which observes that state and may fail),
then on every exit path restore `TMPDIR` to its prior value — or remove
it if it was unset (the `finally` block) — and delete the scratch
directory (leaving the `with tempfile.TemporaryDirectory()` block).
Returns the denoiser's result together with the final state. -/
def run_dada2 (denoise : SysState → Except String (List Sample)) (st : SysState) :
    Except String (List Sample) × SysState :=
  let tmp := newTmpName st.counter
  let stIn : SysState :=
    { tmpdir := some tmp, dirs := st.dirs ++ [tmp], counter := st.counter + 1 }
  let result := denoise stIn
  let stOut : SysState :=
    { tmpdir := st.tmpdir
    , dirs := stIn.dirs.filter (fun d => d != tmp)
    , counter := stIn.counter }
  (result, stOut)

/-- C9: whatever the denoiser call returns, `_run_dada2` hands the
denoiser a freshly created scratch directory (absent before the call,
present and named by `TMPDIR` during it), removes that directory
afterwards, and restores the `TMPDIR` setting to its prior value (or
leaves it unset if it was unset), so neither the environment nor any
scratch directory survives the call. -/
theorem run_dada2_scratch_isolated
    (denoise : SysState → Except String (List Sample)) (st : SysState)
    (hfresh : newTmpName st.counter ∉ st.dirs) :
    (run_dada2 denoise st).2.tmpdir = st.tmpdir ∧
    (run_dada2 denoise st).2.dirs = st.dirs ∧
    (run_dada2 denoise st).1 =
      denoise { tmpdir := some (newTmpName st.counter)
              , dirs := st.dirs ++ [newTmpName st.counter]
              , counter := st.counter + 1 } ∧
    newTmpName st.counter ∉ st.dirs ∧
    newTmpName st.counter ∈ st.dirs ++ [newTmpName st.counter] := by
  refine ⟨rfl, ?_, rfl, hfresh, by simp⟩
  show (st.dirs ++ [newTmpName st.counter]).filter
      (fun d => d != newTmpName st.counter) = st.dirs
  rw [List.filter_append]
  have h1 : st.dirs.filter (fun d => d != newTmpName st.counter) = st.dirs := by
    apply List.filter_eq_self.mpr
    intro a ha
    exact bne_iff_ne.mpr (fun h => hfresh (h ▸ ha))
  have h2 : [newTmpName st.counter].filter (fun d => d != newTmpName st.counter) =
      ([] : List String) := by
    simp
  rw [h1, h2, List.append_nil]

/-- Witness for C9 at a concrete state with `TMPDIR` set and one
pre-existing directory. -/
theorem run_dada2_scratch_isolated_witness :
    (run_dada2 (fun _ => .error "boom") ⟨some "/var/tmp", ["/data"], 0⟩).2.tmpdir =
      (⟨some "/var/tmp", ["/data"], 0⟩ : SysState).tmpdir ∧
    (run_dada2 (fun _ => .error "boom") ⟨some "/var/tmp", ["/data"], 0⟩).2.dirs =
      (⟨some "/var/tmp", ["/data"], 0⟩ : SysState).dirs ∧
    (run_dada2 (fun _ => .error "boom") ⟨some "/var/tmp", ["/data"], 0⟩).1 =
      (fun _ => Except.error "boom" : SysState → Except String (List Sample))
        { tmpdir := some (newTmpName 0), dirs := ["/data"] ++ [newTmpName 0]
        , counter := 0 + 1 } ∧
    newTmpName 0 ∉ (["/data"] : List String) ∧
    newTmpName 0 ∈ (["/data"] : List String) ++ [newTmpName 0] :=
  run_dada2_scratch_isolated (fun _ => .error "boom")
    ⟨some "/var/tmp", ["/data"], 0⟩ (by decide)

end OptiTrim
